import Mathlib

/-!
Verification development for the sentinel timer companion.

Part 1 models the GSI validation utilities (`sanitizeNumber`,
`sanitizeGameState`, `validateAndSanitizeGSIData`, `safeClone`) over a
shallow embedding of JavaScript values, together with the
`processGameState` step of the Electron GSI hook.

Part 2 models the timer engine of `TimerManager.tsx`: timer definitions,
active instances, the 1 Hz tick effect, and the start/stop/pause
operations.

Part 3 models the connection state machine of the polling GSI hook
(`useGameStateIntegration`).
-/

/-- Shallow embedding of a JavaScript value. Finite JS numbers are modelled
as rationals; `nan` and `inf` stand for the non-finite numbers (`typeof`
of both is still "number"). Objects are ordered association lists of own
enumerable string keys. -/
inductive Js where
  | null : Js
  | bool : Bool → Js
  | num : Rat → Js
  | nan : Js
  | inf : Bool → Js
  | str : String → Js
  | arr : List Js → Js
  | obj : List (String × Js) → Js

/-- Field access `o[k]` on an object field list: the first binding of the
key, `none` when the key is absent (JS `undefined`). -/
def getField (fs : List (String × Js)) (k : String) : Option Js :=
  (fs.find? (fun kv => kv.1 == k)).map (fun kv => kv.2)

/-- Mirrors `Math.min` on two finite numbers. -/
def jsMin (a b : Rat) : Rat := if a ≤ b then a else b

/-- Mirrors `Math.max` on two finite numbers. -/
def jsMax (a b : Rat) : Rat := if a ≤ b then b else a

/-- Mirrors `sanitizeNumber(value, min, max, defaultValue)` from the
validation utilities: a finite number is clamped into `[lo, hi]`; every
other value (non-number, `NaN`, infinite, or an absent field) falls back
to the default. -/
def sanitizeNumber (value : Option Js) (lo hi dflt : Rat) : Rat :=
  match value with
  | some (Js.num q) => jsMax lo (jsMin hi q)
  | _ => dflt

/-- The closed set of recognized game phase identifier strings,
mirroring `VALID_GAME_STATES`. -/
def VALID_GAME_STATES : List String :=
  [ "DOTA_GAMERULES_STATE_INIT"
  , "DOTA_GAMERULES_STATE_WAIT_FOR_PLAYERS_TO_LOAD"
  , "DOTA_GAMERULES_STATE_HERO_SELECTION"
  , "DOTA_GAMERULES_STATE_STRATEGY_TIME"
  , "DOTA_GAMERULES_STATE_PRE_GAME"
  , "DOTA_GAMERULES_STATE_GAME_IN_PROGRESS"
  , "DOTA_GAMERULES_STATE_POST_GAME"
  , "DOTA_GAMERULES_STATE_DISCONNECT" ]

/-- Mirrors `sanitizeGameState(value)`: a string in the closed phase set
passes through, anything else maps to the initial phase identifier. -/
def sanitizeGameState (value : Option Js) : String :=
  match value with
  | some (Js.str s) =>
    if VALID_GAME_STATES.contains s then s else "DOTA_GAMERULES_STATE_INIT"
  | _ => "DOTA_GAMERULES_STATE_INIT"

/-- Mirrors `typeof v === "boolean" ? v : false` used for `paused`. -/
def sanitizeBool (value : Option Js) : Bool :=
  match value with
  | some (Js.bool b) => b
  | _ => false

/-- Bounds from the validation utilities: game/clock time range. -/
def MIN_GAME_TIME : Rat := -300
/-- Upper clock bound: two hours in seconds, `3600 * 2` in the source. -/
def MAX_GAME_TIME : Rat := 7200

/-- The sanitized `map` sub-object of a GSI payload. -/
structure MapData where
  clock_time : Rat
  game_time : Rat
  paused : Bool
  game_state : String
  winner : Rat
deriving DecidableEq, Repr

/-- The sanitized GSI payload: the optional `map` object plus the
optional top-level fields, each present exactly when the corresponding
key was assigned by the sanitizer. -/
structure RawGSIData where
  map : Option MapData
  clock_time : Option Rat
  game_time : Option Rat
  paused : Option Bool
  game_state : Option String
  winner : Option Rat
deriving DecidableEq, Repr

/-- The five sanitized fields built from a raw `map` object. -/
def sanitizeMapObj (ms : List (String × Js)) : MapData :=
  { clock_time := sanitizeNumber (getField ms "clock_time") MIN_GAME_TIME MAX_GAME_TIME 0
  , game_time := sanitizeNumber (getField ms "game_time") MIN_GAME_TIME MAX_GAME_TIME 0
  , paused := sanitizeBool (getField ms "paused")
  , game_state := sanitizeGameState (getField ms "game_state")
  , winner := sanitizeNumber (getField ms "winner") 0 3 0 }

/-- Builds the sanitized `map` object from the raw `map` field value when
that value is a truthy non-array object, as in the source guard
`data.map && typeof data.map === "object" && !Array.isArray(data.map)`. -/
def sanitizeMapField (fs : List (String × Js)) : Option MapData :=
  match getField fs "map" with
  | some (Js.obj ms) => some (sanitizeMapObj ms)
  | _ => none

/-- The record assembled by `validateAndSanitizeGSIData` before its final
emptiness check: each top-level key is copied (sanitized) exactly when it
is present on the input object. -/
def buildRaw (fs : List (String × Js)) : RawGSIData :=
  { map := sanitizeMapField fs
  , clock_time := (getField fs "clock_time").map
      (fun v => sanitizeNumber (some v) MIN_GAME_TIME MAX_GAME_TIME 0)
  , game_time := (getField fs "game_time").map
      (fun v => sanitizeNumber (some v) MIN_GAME_TIME MAX_GAME_TIME 0)
  , paused := (getField fs "paused").map (fun v => sanitizeBool (some v))
  , game_state := (getField fs "game_state").map (fun v => sanitizeGameState (some v))
  , winner := (getField fs "winner").map (fun v => sanitizeNumber (some v) 0 3 0) }

/-- True when no recognized field was assigned at all. The source checks
`Object.keys(sanitized).length === 0 && (!sanitized.map || ...)`; since a
zero key count already implies `map` is absent (and a present sanitized
map always carries its five keys), the condition reduces to every field
being unassigned. -/
def isEmptyRaw (r : RawGSIData) : Bool :=
  r.map.isNone && r.clock_time.isNone && r.game_time.isNone &&
    r.paused.isNone && r.game_state.isNone && r.winner.isNone

/-- Mirrors `validateAndSanitizeGSIData(data)`: rejects non-objects
(`null`, arrays, primitives), sanitizes the `map` object and the
top-level fields, and returns `none` when no recognized field was
present. -/
def validateAndSanitizeGSIData (data : Js) : Option RawGSIData :=
  match data with
  | Js.obj fs =>
    let r := buildRaw fs
    if isEmptyRaw r then none else some r
  | _ => none

/-- A key whose copy is blocked by `safeClone` to prevent prototype
pollution. -/
def dangerousKey (k : String) : Bool :=
  k == "__proto__" || k == "constructor" || k == "prototype"

/-- Mirrors `safeClone(obj)`: primitives pass through, arrays clone
element-wise, and objects clone own keys while skipping `__proto__`,
`constructor` and `prototype`. -/
def safeClone : Js → Js
  | Js.null => Js.null
  | Js.bool b => Js.bool b
  | Js.num q => Js.num q
  | Js.nan => Js.nan
  | Js.inf b => Js.inf b
  | Js.str s => Js.str s
  | Js.arr xs => Js.arr (xs.attach.map (fun x => safeClone x.1))
  | Js.obj fs =>
    Js.obj (((fs.filter (fun kv => !dangerousKey kv.1)).attach.map
      (fun kv => (kv.1.1, safeClone kv.1.2))))
decreasing_by
  · simp only [Js.arr.sizeOf_spec]
    have := List.sizeOf_lt_of_mem x.2
    omega
  · simp only [Js.obj.sizeOf_spec]
    have h1 : kv.1 ∈ fs := List.mem_of_mem_filter kv.2
    have h2 := List.sizeOf_lt_of_mem h1
    have h3 : sizeOf kv.1.2 < sizeOf kv.1 := by
      obtain ⟨a, b⟩ := kv.1
      simp only [Prod.mk.sizeOf_spec]
      omega
    omega

/-- The validated game-state value assembled by the Electron GSI hook. -/
structure GameState where
  clock_time : Rat
  game_time : Rat
  paused : Bool
  game_state : String
  winner : Rat
deriving DecidableEq, Repr

/-- JS `a || b` on an optional string: an absent or empty (falsy) left
operand falls through to the right operand. -/
def jsOrStr (a b : Option String) : Option String :=
  match a with
  | some s => if s = "" then b else some s
  | none => b

/-- Mirrors `processGameState` of the Electron GSI hook: the raw payload
runs through `validateAndSanitizeGSIData`; a null or empty result clears
the stored state (`none`); otherwise the hook assembles a `GameState`,
preferring `map.*` fields over top-level fields with `??` fallbacks. -/
def processGameState (data : Js) : Option GameState :=
  match validateAndSanitizeGSIData data with
  | none => none
  | some sanitized =>
    if isEmptyRaw sanitized then none
    else
      let rawState := jsOrStr (sanitized.map.map MapData.game_state) sanitized.game_state
      let gameStateValue :=
        match rawState with
        | some s => if s = "" then "DOTA_GAMERULES_STATE_INIT" else s
        | none => "DOTA_GAMERULES_STATE_INIT"
      some
        { clock_time :=
            (((sanitized.map.map MapData.clock_time).orElse
              (fun _ => sanitized.clock_time))).getD 0
        , game_time :=
            ((((sanitized.map.map MapData.game_time).orElse
              (fun _ => sanitized.game_time)).orElse
              (fun _ => sanitized.map.map MapData.clock_time)).orElse
              (fun _ => sanitized.clock_time)).getD 0
        , paused :=
            (((sanitized.map.map MapData.paused).orElse
              (fun _ => sanitized.paused))).getD false
        , game_state := gameStateValue
        , winner :=
            (((sanitized.map.map MapData.winner).orElse
              (fun _ => sanitized.winner))).getD 0 }

/-- A timer definition from `DEFAULT_TIMERS` (the `Timer` interface of
`TimerCard`): duration in seconds, optional min/max window bounds, a
category string and an audio flag. -/
structure Timer where
  id : String
  name : String
  duration : Int
  minDuration : Option Int
  maxDuration : Option Int
  type : String
  audioAlert : Bool
deriving DecidableEq, Repr

/-- An `ActiveTimer` instance of `TimerManager`: wall-clock start time in
milliseconds, the last computed remaining seconds, the individual pause
flag and the recorded pause timestamp. -/
structure ActiveTimer where
  id : String
  startTime : Int
  timeRemaining : Int
  isPaused : Bool
  pausedTime : Option Int
deriving DecidableEq, Repr

/-- The `TimerManager` component state: the active instances (a record
keyed by id, modelled as a list with distinct ids in insertion order) and
the global pause flag `isPaused`. -/
structure TMState where
  activeTimers : List ActiveTimer
  isPaused : Bool
deriving DecidableEq, Repr

/-- The initial `TimerManager` state: no active timers, global pause
clear. -/
def initTM : TMState := { activeTimers := [], isPaused := false }

/-- The five built-in timer definitions of `DEFAULT_TIMERS`. -/
def DEFAULT_TIMERS : List Timer :=
  [ { id := "roshan", name := "Roshan", duration := 660, minDuration := some 480
    , maxDuration := some 660, type := "roshan", audioAlert := true }
  , { id := "bounty-rune", name := "Bounty Rune", duration := 300, minDuration := none
    , maxDuration := none, type := "rune", audioAlert := true }
  , { id := "power-rune", name := "Power Rune", duration := 120, minDuration := none
    , maxDuration := none, type := "rune", audioAlert := true }
  , { id := "lotus", name := "Lotus", duration := 180, minDuration := none
    , maxDuration := none, type := "rune", audioAlert := true }
  , { id := "neutral-pull", name := "Neutral Pull", duration := 60, minDuration := none
    , maxDuration := none, type := "neutral", audioAlert := true } ]

/-- An alert event observable through the toast/audio sink: a completion
alert (`handleTimerAlert`) or the window-open toast of a roshan-type
timer reaching its minimum duration. -/
inductive Alert where
  | completed : String → Alert
  | windowOpen : String → Alert
deriving DecidableEq, Repr

/-- True exactly for completion alerts. -/
def Alert.isCompletion : Alert → Bool
  | Alert.completed _ => true
  | Alert.windowOpen _ => false

/-- Mirrors line 79 of `TimerManager.tsx`:
`Math.max(0, DEFAULT_TIMERS.find(t => t.id === id)?.duration || 0) -
Math.floor(elapsed / 1000)`. Note that in the source the `Math.max`
closes before the subtraction, so only the looked-up duration is clamped
at zero, not the difference. -/
def recomputeRemaining (defs : List Timer) (id : String) (elapsedMs : Int) : Int :=
  max 0 (((defs.find? (fun t => t.id == id)).map Timer.duration).getD 0) -
    Int.fdiv elapsedMs 1000

/-- JS truthiness of the optional `minDuration` number: defined and
nonzero. -/
def minTruthy : Option Int → Bool
  | some m => m != 0
  | none => false

/-- One iteration of the tick effect body for a single active instance:
a paused instance is skipped; otherwise the remaining time is recomputed
from wall-clock elapsed time, and on a change the instance either
completes (alert, removed), emits at most one window-open alert, or is
merely updated. Returns the surviving instance (if any) and the alerts
emitted for it. -/
def processOne (defs : List Timer) (now : Int) (t : ActiveTimer) :
    Option ActiveTimer × List Alert :=
  if t.isPaused then (some t, [])
  else
    let elapsed := now - t.startTime
    let newRem := recomputeRemaining defs t.id elapsed
    if newRem = t.timeRemaining then (some t, [])
    else
      let u := { t with timeRemaining := newRem }
      match defs.find? (fun d => d.id == t.id) with
      | some cfg =>
        if newRem ≤ 0 then (none, [Alert.completed t.id])
        else if cfg.type == "roshan" && minTruthy cfg.minDuration then
          if cfg.minDuration = some (Int.fdiv elapsed 1000) then
            (some u, [Alert.windowOpen t.id])
          else (some u, [])
        else (some u, [])
      | none => (some u, [])

/-- One firing of the 1 Hz interval at wall-clock time `now` (ms): a
no-op under the global pause flag, otherwise every instance is processed
independently (the source iterates the captured key set, and each
iteration touches only its own key). -/
def tick (defs : List Timer) (now : Int) (s : TMState) : TMState × List Alert :=
  if s.isPaused then (s, [])
  else
    let results := s.activeTimers.map (processOne defs now)
    ({ s with activeTimers := results.filterMap Prod.fst },
      (results.map Prod.snd).flatten)

/-- Mirrors `startTimer`: unknown ids are ignored; otherwise the
instance record for the id is replaced (restart) or inserted, with
`startTime = now`, full remaining duration, and pause cleared. -/
def startTimer (defs : List Timer) (id : String) (now : Int) (s : TMState) : TMState :=
  match defs.find? (fun t => t.id == id) with
  | none => s
  | some t =>
    let inst : ActiveTimer :=
      { id := id, startTime := now, timeRemaining := t.duration
      , isPaused := false, pausedTime := none }
    { s with activeTimers :=
        if s.activeTimers.any (fun a => a.id == id) then
          s.activeTimers.map (fun a => if a.id == id then inst else a)
        else s.activeTimers ++ [inst] }

/-- Mirrors `stopTimer`: deletes the instance record if present. -/
def stopTimer (id : String) (s : TMState) : TMState :=
  { s with activeTimers := s.activeTimers.filter (fun a => !(a.id == id)) }

/-- Mirrors `pauseTimer`: toggles the individual pause flag of the
instance, recording `pausedTime` when pausing and clearing it when
resuming; a missing id is a no-op. Note that `startTime` is left
untouched. -/
def pauseTimer (id : String) (now : Int) (s : TMState) : TMState :=
  { s with activeTimers := s.activeTimers.map (fun a =>
      if a.id == id then
        { a with
          isPaused := !a.isPaused,
          pausedTime := if !a.isPaused then some now else none }
      else a) }

/-- Mirrors `pauseAllTimers`: toggles the global pause flag. -/
def pauseAllTimers (s : TMState) : TMState :=
  { s with isPaused := !s.isPaused }

/-- Mirrors `resetAllTimers`: clears every instance and the global
pause flag. -/
def resetAllTimers (_s : TMState) : TMState := initTM

/-- Runs `n` consecutive ticks; the tick following wall-clock second
`t0` fires at second `t0 + 1`. Each emitted alert is tagged with the
wall-clock second of the tick that produced it. -/
def runTicks (defs : List Timer) : Nat → TMState → Nat → TMState × List (Nat × Alert)
  | 0, s, _ => (s, [])
  | Nat.succ n, s, t0 =>
    let r1 := tick defs (((t0 + 1) * 1000 : Nat) : Int) s
    let r2 := runTicks defs n r1.1 (t0 + 1)
    (r2.1, r1.2.map (fun a => (t0 + 1, a)) ++ r2.2)

/-- Connection states of the polling GSI hook. -/
inductive ConnStatus where
  | disconnected : ConnStatus
  | connecting : ConnStatus
  | connected : ConnStatus
  | error : ConnStatus
deriving DecidableEq, Repr

/-- State of the polling GSI hook `useGameStateIntegration`: connection
status, the consecutive-failure attempt counter and the surfaced error
message. -/
structure FeedState where
  status : ConnStatus
  connectionAttempts : Nat
  errorMsg : Option String
deriving DecidableEq, Repr

/-- The maximum retry count, `maxRetries = 3` in the source. -/
def maxRetries : Nat := 3

/-- Mirrors `connect()`: a no-op while already `connecting`; otherwise
enters `connecting`, resets the attempt counter and clears the error
(the immediate poll it also issues is a separate trace event). -/
def connectFeed (s : FeedState) : FeedState :=
  if s.status = ConnStatus.connecting then s
  else
    { status := ConnStatus.connecting, connectionAttempts := 0, errorMsg := none }

/-- The composite message surfaced when the retry threshold check
fires. -/
def failureBanner (msg : String) : String :=
  "GSI Connection Failed: " ++ msg ++ ". Please check the GSI config file, the GSI server on localhost:3000, and that a match is active"

/-- Mirrors one failed run of `pollGameState` (fetch threw or the
payload was rejected). The callback increments the attempt counter with
a functional update, but the `connectionAttempts` value compared against
`maxRetries` in the catch block is the state captured when the callback
was created — the pre-increment value. -/
def pollFail (msg : String) (s : FeedState) : FeedState :=
  let captured := s.connectionAttempts
  let s1 := { s with connectionAttempts := s.connectionAttempts + 1 }
  if maxRetries ≤ captured then
    { s1 with status := ConnStatus.error, errorMsg := some (failureBanner msg) }
  else if s.status = ConnStatus.connecting then
    { s1 with errorMsg := none }
  else
    { s1 with status := ConnStatus.disconnected, errorMsg := some msg }

/-- Mirrors one successful run of `pollGameState` with a usable payload:
`connected`, attempts reset, error cleared. -/
def pollSuccess (_s : FeedState) : FeedState :=
  { status := ConnStatus.connected, connectionAttempts := 0, errorMsg := none }

/-- Mirrors the polling interval effect: 1000 ms while `connected`,
2000 ms while `connecting` with attempts below `maxRetries`, and no
interval at all otherwise. -/
def pollIntervalMs (s : FeedState) : Option Nat :=
  if s.status = ConnStatus.connected then some 1000
  else if s.status = ConnStatus.connecting ∧ s.connectionAttempts < maxRetries then
    some 2000
  else none

/-- The state holding exactly one running (unpaused) instance of `t`,
started at wall-clock 0, as observed after `k` ticks. -/
def singleTimer (t : Timer) (k : Nat) : TMState :=
  { activeTimers :=
      [{ id := t.id, startTime := 0, timeRemaining := t.duration - (k : Int)
       , isPaused := false, pausedTime := none }]
  , isPaused := false }

/-- The remaining-time formula as the specification words it:
`remaining = max(0, duration - floor(elapsed))`, with the clamp applied
to the difference. Stated only for comparison with
`recomputeRemaining`. -/
def specRemaining (duration : Int) (elapsedMs : Int) : Int :=
  max 0 (duration - Int.fdiv elapsedMs 1000)

/-- Re-encodes a sanitized `map` object as the JS value it would be
presented as on a subsequent call. -/
def encodeMap (m : MapData) : List (String × Js) :=
  [ ("clock_time", Js.num m.clock_time)
  , ("game_time", Js.num m.game_time)
  , ("paused", Js.bool m.paused)
  , ("game_state", Js.str m.game_state)
  , ("winner", Js.num m.winner) ]

/-- The field list of an optional key: present with its encoded value or
absent. -/
def optField (k : String) (v : Option Js) : List (String × Js) :=
  match v with
  | some j => [(k, j)]
  | none => []

/-- Re-encodes a sanitized payload as the JS object it denotes, with
exactly the assigned keys present. -/
def encodeRaw (r : RawGSIData) : List (String × Js) :=
  optField "map" (r.map.map (fun m => Js.obj (encodeMap m))) ++
  (optField "clock_time" (r.clock_time.map Js.num) ++
  (optField "game_time" (r.game_time.map Js.num) ++
  (optField "paused" (r.paused.map Js.bool) ++
  (optField "game_state" (r.game_state.map Js.str) ++
  optField "winner" (r.winner.map Js.num)))))

/-- The JS value denoted by a sanitizer result: the object for a
sanitized payload, and JS `null` for a rejected one. -/
def encodeResult (r : Option RawGSIData) : Js :=
  match r with
  | some v => Js.obj (encodeRaw v)
  | none => Js.null

/-- The 60-second neutral-pull definition of `DEFAULT_TIMERS`, used as a
concrete instance in witnesses. -/
def neutralPullTimer : Timer :=
  { id := "neutral-pull", name := "Neutral Pull", duration := 60,
    minDuration := none, maxDuration := none, type := "neutral", audioAlert := true }

/-- The roshan window definition of `DEFAULT_TIMERS`, used as a concrete
instance in witnesses. -/
def roshanTimer : Timer :=
  { id := "roshan", name := "Roshan", duration := 660,
    minDuration := some 480, maxDuration := some 660, type := "roshan",
    audioAlert := true }

/-- A concrete well-formed state with one running neutral-pull instance,
used as a witness state. -/
def witnessState : TMState :=
  { activeTimers :=
      [{ id := "neutral-pull", startTime := 0, timeRemaining := 55,
         isPaused := false, pausedTime := none }],
    isPaused := false }

theorem fdiv_thousand (k : Nat) : Int.fdiv ((k * 1000 : Nat) : Int) 1000 = (k : Int) := by
  push_cast
  exact Int.mul_fdiv_cancel _ (by norm_num)

theorem find?_timer_self (t : Timer) : List.find? (fun d => d.id == t.id) [t] = some t :=
  List.find?_cons_of_pos _ (by simp)

theorem startTimer_singleton (t : Timer) :
    startTimer [t] t.id 0 initTM = singleTimer t 0 := by
  simp [startTimer, find?_timer_self, initTM, singleTimer]

theorem tick_single_step (t : Timer) (D a : Nat) (hD : t.duration = (D : Int))
    (ha : a + 1 < D) :
    tick [t] (((a + 1) * 1000 : Nat) : Int) (singleTimer t a) =
      (singleTimer t (a + 1),
        if t.type = "roshan" ∧ minTruthy t.minDuration ∧
            t.minDuration = some ((a : Int) + 1)
        then [Alert.windowOpen t.id] else []) := by
  have hfd : Int.fdiv (((a : Int) + 1) * 1000) 1000 = ((a : Int) + 1) :=
    Int.mul_fdiv_cancel _ (by norm_num)
  have hrem : recomputeRemaining [t] t.id (((a : Int) + 1) * 1000) =
      t.duration - ((a : Int) + 1) := by
    rw [recomputeRemaining, find?_timer_self, hfd]
    simp only [Option.map_some', Option.getD_some]
    rw [hD, max_eq_right (by positivity : (0 : Int) ≤ (D : Int))]
  have hne : ¬(t.duration - ((a : Int) + 1) = t.duration - (a : Int)) := by omega
  have hnle : ¬(t.duration - ((a : Int) + 1) ≤ 0) := by rw [hD]; omega
  have hnle2 : ¬((D : Int) ≤ (a : Int) + 1) := by omega
  by_cases hcond : t.type = "roshan" ∧ minTruthy t.minDuration ∧
      t.minDuration = some ((a : Int) + 1)
  · obtain ⟨hty, hmt, hmd⟩ := hcond
    have hmt' : minTruthy (some ((a : Int) + 1)) = true := hmd ▸ hmt
    rw [if_pos ⟨hty, hmt, hmd⟩]
    simp [tick, singleTimer, processOne, hrem, hne, hnle, hnle2, hfd, hty, hmd, hmt',
      find?_timer_self, hD]
  · rw [if_neg hcond]
    by_cases hb : t.type = "roshan" ∧ minTruthy t.minDuration
    · have hmd : ¬(t.minDuration = some ((a : Int) + 1)) := fun h =>
        hcond ⟨hb.1, hb.2, h⟩
      have hmt' := hb.2
      simp [tick, singleTimer, processOne, hrem, hne, hnle, hnle2, hfd, hb.1, hmt', hmd,
        find?_timer_self, hD]
    · simp [tick, singleTimer, processOne, hrem, hne, hnle, hnle2, hfd, hb,
        find?_timer_self, hD]

theorem runTicks_single_mid (t : Timer) (D : Nat) (hD : t.duration = (D : Int)) :
    ∀ (n a : Nat), a + n < D →
      (runTicks [t] n (singleTimer t a) a).1 = singleTimer t (a + n) ∧
      ∀ x ∈ (runTicks [t] n (singleTimer t a) a).2, x.2.isCompletion = false := by
  intro n
  induction n with
  | zero =>
    intro a ha
    simp [runTicks]
  | succ n ih =>
    intro a ha
    have hstep := tick_single_step t D a hD (by omega)
    have ih' := ih (a + 1) (by omega)
    simp only [runTicks]
    rw [hstep]
    constructor
    · rw [show a + (n + 1) = (a + 1) + n from by omega]
      exact ih'.1
    · intro x hx
      rcases List.mem_append.mp hx with h | h
      · split at h
        · simp only [List.map_cons, List.map_nil, List.mem_singleton] at h
          rw [h]
          rfl
        · simp at h
      · exact ih'.2 x h

theorem tick_single_final (t : Timer) (D : Nat) (hD : t.duration = (D : Int))
    (h1 : 1 ≤ D) :
    tick [t] ((D * 1000 : Nat) : Int) (singleTimer t (D - 1)) =
      (initTM, [Alert.completed t.id]) := by
  have hfd : Int.fdiv ((D : Int) * 1000) 1000 = (D : Int) :=
    Int.mul_fdiv_cancel _ (by norm_num)
  have hrem : recomputeRemaining [t] t.id ((D : Int) * 1000) =
      t.duration - (D : Int) := by
    rw [recomputeRemaining, find?_timer_self, hfd]
    simp only [Option.map_some', Option.getD_some]
    rw [hD, max_eq_right (by positivity : (0 : Int) ≤ (D : Int))]
  have hne : ¬(t.duration - (D : Int) = t.duration - ((D - 1 : Nat) : Int)) := by
    have : ((D - 1 : Nat) : Int) = (D : Int) - 1 := by omega
    rw [this]
    omega
  have hle : t.duration - (D : Int) ≤ 0 := by rw [hD]; omega
  have hle2 : (D : Int) ≤ (D : Int) := le_refl _
  have hne2 : ¬((0 : Int) = (D : Int) - ((D - 1 : Nat) : Int)) := by omega
  simp [tick, singleTimer, processOne, hrem, hne, hne2, hle, hle2, find?_timer_self,
    hD, initTM]

theorem runTicks_split (defs : List Timer) (m n : Nat) :
    ∀ (s : TMState) (t0 : Nat),
      runTicks defs (m + n) s t0 =
        ((runTicks defs n (runTicks defs m s t0).1 (t0 + m)).1,
          (runTicks defs m s t0).2 ++
            (runTicks defs n (runTicks defs m s t0).1 (t0 + m)).2) := by
  induction m with
  | zero =>
    intro s t0
    simp [runTicks]
  | succ m ih =>
    intro s t0
    rw [show m + 1 + n = (m + n) + 1 from by omega]
    simp only [runTicks]
    rw [ih]
    rw [show t0 + 1 + m = t0 + (m + 1) from by omega]
    simp [List.append_assoc]

theorem runTicks_roshan_mid (t : Timer) (D M : Nat) (hD : t.duration = (D : Int))
    (hT : t.type = "roshan") (hM : t.minDuration = some ((M : Nat) : Int))
    (h0 : 0 < M) :
    ∀ (n a : Nat), a + n < D →
      runTicks [t] n (singleTimer t a) a =
        (singleTimer t (a + n),
          if a < M ∧ M ≤ a + n then [(M, Alert.windowOpen t.id)] else []) := by
  intro n
  induction n with
  | zero =>
    intro a ha
    rw [if_neg (by omega : ¬(a < M ∧ M ≤ a + 0))]
    simp [runTicks]
  | succ n ih =>
    intro a ha
    have hstep := tick_single_step t D a hD (by omega)
    have ih' := ih (a + 1) (by omega)
    simp only [runTicks]
    rw [hstep]
    simp only [ih']
    by_cases hMa : M = a + 1
    · have hcond : t.type = "roshan" ∧ minTruthy t.minDuration ∧
          t.minDuration = some ((a : Int) + 1) := by
        refine ⟨hT, ?_, ?_⟩
        · rw [hM]
          simp only [minTruthy, bne_iff_ne, ne_eq, decide_not]
          simp
          omega
        · rw [hM, hMa]
          push_cast
          ring_nf
      rw [if_pos hcond]
      rw [if_neg (by omega : ¬(a + 1 < M ∧ M ≤ a + 1 + n))]
      rw [if_pos (by omega : a < M ∧ M ≤ a + (n + 1))]
      rw [show (a + 1) + n = a + (n + 1) from by omega, hMa]
      simp
    · have hcond : ¬(t.type = "roshan" ∧ minTruthy t.minDuration ∧
          t.minDuration = some ((a : Int) + 1)) := by
        intro h
        rcases h with ⟨_, _, h3⟩
        rw [hM] at h3
        have h4 : ((M : Nat) : Int) = (a : Int) + 1 := by
          exact Option.some.inj h3
        omega
      rw [if_neg hcond]
      by_cases hw : a + 1 < M ∧ M ≤ a + 1 + n
      · rw [if_pos hw, if_pos (by omega : a < M ∧ M ≤ a + (n + 1))]
        rw [show (a + 1) + n = a + (n + 1) from by omega]
        simp
      · rw [if_neg hw, if_neg (by omega : ¬(a < M ∧ M ≤ a + (n + 1)))]
        rw [show (a + 1) + n = a + (n + 1) from by omega]
        simp

/-- C7: for every valid timer definition with duration D, starting the
timer and advancing the tick driver by exactly D ticks with no pauses
emits exactly one completion alert, emitted on the D-th tick, and
removes the instance from the registry. -/
theorem c7_completion_on_Dth_tick (t : Timer) (D : Nat)
    (hD : t.duration = (D : Int)) (hpos : 0 < D) :
    ((runTicks [t] D (startTimer [t] t.id 0 initTM) 0).2.filter
        (fun x => x.2.isCompletion)) = [(D, Alert.completed t.id)] ∧
    (runTicks [t] D (startTimer [t] t.id 0 initTM) 0).1.activeTimers = [] := by
  rw [startTimer_singleton]
  have hsplit := runTicks_split [t] (D - 1) 1 (singleTimer t 0) 0
  rw [show (D - 1) + 1 = D from by omega] at hsplit
  have hmid := runTicks_single_mid t D hD (D - 1) 0 (by omega)
  have hmid1 : (runTicks [t] (D - 1) (singleTimer t 0) 0).1 = singleTimer t (D - 1) := by
    rw [hmid.1, show 0 + (D - 1) = D - 1 from by omega]
  have hfinal : runTicks [t] 1 (singleTimer t (D - 1)) (0 + (D - 1)) =
      (initTM, [(D, Alert.completed t.id)]) := by
    simp only [runTicks]
    rw [show 0 + (D - 1) + 1 = D from by omega]
    rw [tick_single_final t D hD (by omega)]
    simp
  have hfilter : (runTicks [t] (D - 1) (singleTimer t 0) 0).2.filter
      (fun x => x.2.isCompletion) = [] := by
    rw [List.filter_eq_nil_iff]
    intro x hx
    simp [hmid.2 x hx]
  rw [hsplit, hmid1, hfinal]
  constructor
  · simp only [List.filter_append, hfilter, List.nil_append]
    simp [Alert.isCompletion]
  · rfl

/-- C6: for every window timer (a roshan-type definition carrying a
minimum duration M) with M < D, started and advanced tick by tick with
no pauses: at tick M exactly one window-open alert is emitted and the
instance still exists; advancing to tick D emits exactly one completion
alert — two distinct alerts in total, each emitted exactly once. -/
theorem c6_window_then_completion (t : Timer) (D M : Nat)
    (hD : t.duration = (D : Int)) (hT : t.type = "roshan")
    (hM : t.minDuration = some ((M : Nat) : Int)) (h0 : 0 < M) (hMD : M < D) :
    (runTicks [t] M (startTimer [t] t.id 0 initTM) 0).1.activeTimers ≠ [] ∧
    (runTicks [t] M (startTimer [t] t.id 0 initTM) 0).2 =
      [(M, Alert.windowOpen t.id)] ∧
    (runTicks [t] D (startTimer [t] t.id 0 initTM) 0).2 =
      [(M, Alert.windowOpen t.id), (D, Alert.completed t.id)] ∧
    (runTicks [t] D (startTimer [t] t.id 0 initTM) 0).1.activeTimers = [] := by
  rw [startTimer_singleton]
  have hMrun := runTicks_roshan_mid t D M hD hT hM h0 M 0 (by omega)
  rw [if_pos (by omega : 0 < M ∧ M ≤ 0 + M)] at hMrun
  have hsplit := runTicks_split [t] (D - 1) 1 (singleTimer t 0) 0
  rw [show (D - 1) + 1 = D from by omega] at hsplit
  have hmid := runTicks_roshan_mid t D M hD hT hM h0 (D - 1) 0 (by omega)
  rw [if_pos (by omega : 0 < M ∧ M ≤ 0 + (D - 1))] at hmid
  have hmid1 : (runTicks [t] (D - 1) (singleTimer t 0) 0).1 = singleTimer t (D - 1) := by
    rw [hmid, show 0 + (D - 1) = D - 1 from by omega]
  have hmid2 : (runTicks [t] (D - 1) (singleTimer t 0) 0).2 =
      [(M, Alert.windowOpen t.id)] := by
    rw [hmid]
  have hfinal : runTicks [t] 1 (singleTimer t (D - 1)) (0 + (D - 1)) =
      (initTM, [(D, Alert.completed t.id)]) := by
    simp only [runTicks]
    rw [show 0 + (D - 1) + 1 = D from by omega]
    rw [tick_single_final t D hD (by omega)]
    simp
  refine ⟨?_, ?_, ?_, ?_⟩
  · rw [hMrun]
    simp [singleTimer]
  · rw [hMrun]
  · rw [hsplit, hmid1, hmid2, hfinal]
    rfl
  · rw [hsplit, hmid1, hfinal]
    rfl

theorem processOne_fst_id (defs : List Timer) (now : Int) (a u : ActiveTimer)
    (h : (processOne defs now a).1 = some u) : u.id = a.id := by
  simp only [processOne] at h
  repeat' split at h
  all_goals simp_all
  all_goals rw [← h]

theorem processOne_fst_pos (defs : List Timer) (now : Int) (a u : ActiveTimer)
    (hpos : 0 < a.timeRemaining)
    (hdef : ∃ d ∈ defs, d.id = a.id)
    (h : (processOne defs now a).1 = some u) : 0 < u.timeRemaining := by
  obtain ⟨d, hd, hid⟩ := hdef
  have hfind : (defs.find? (fun x => x.id == a.id)).isSome :=
    List.find?_isSome.mpr ⟨d, hd, by simp [hid]⟩
  simp only [processOne] at h
  repeat' split at h
  all_goals simp_all
  all_goals subst h
  all_goals simp
  all_goals omega

theorem processOne_removes (defs : List Timer) (now : Int) (a : ActiveTimer)
    (hp : a.isPaused = false)
    (hpos : 0 < a.timeRemaining)
    (hdef : ∃ d ∈ defs, d.id = a.id)
    (hle : recomputeRemaining defs a.id (now - a.startTime) ≤ 0) :
    (processOne defs now a).1 = none := by
  obtain ⟨d, hd, hid⟩ := hdef
  have hfind : (defs.find? (fun x => x.id == a.id)).isSome :=
    List.find?_isSome.mpr ⟨d, hd, by simp [hid]⟩
  obtain ⟨cfg, hcfg⟩ := Option.isSome_iff_exists.mp hfind
  have hne : ¬(recomputeRemaining defs a.id (now - a.startTime) = a.timeRemaining) := by
    omega
  simp [processOne, hp, hne, hcfg, hle]

/-- C10: after every tick of the 1 Hz driver over a well-formed state
(positive remaining times, defined ids, record-like distinct keys), every
surviving instance has a nonnegative `timeRemaining`, and any unpaused
instance whose recomputed remaining time reaches or falls below zero is
removed from the registry during that same tick. -/
theorem c10_no_negative_survivor (defs : List Timer) (now : Int) (s : TMState)
    (hpos : ∀ a ∈ s.activeTimers, 0 < a.timeRemaining)
    (hdef : ∀ a ∈ s.activeTimers, ∃ d ∈ defs, d.id = a.id)
    (hnodup : (s.activeTimers.map ActiveTimer.id).Nodup) :
    (∀ u ∈ (tick defs now s).1.activeTimers, 0 ≤ u.timeRemaining) ∧
    (s.isPaused = false → ∀ a ∈ s.activeTimers, a.isPaused = false →
      recomputeRemaining defs a.id (now - a.startTime) ≤ 0 →
      ∀ u ∈ (tick defs now s).1.activeTimers, u.id ≠ a.id) := by
  by_cases hgp : s.isPaused
  · constructor
    · intro u hu
      rw [tick, if_pos hgp] at hu
      exact le_of_lt (hpos u hu)
    · intro hfalse
      rw [hfalse] at hgp
      exact absurd hgp (by simp)
  · have htick : (tick defs now s).1.activeTimers =
        s.activeTimers.filterMap (fun a => (processOne defs now a).1) := by
      rw [tick, if_neg hgp]
      simp [List.filterMap_map]
      rfl
    constructor
    · intro u hu
      rw [htick] at hu
      obtain ⟨a, ha, hsome⟩ := List.mem_filterMap.mp hu
      exact le_of_lt (processOne_fst_pos defs now a u (hpos a ha) (hdef a ha) hsome)
    · intro _ a ha hap hle u hu hid
      rw [htick] at hu
      obtain ⟨b, hb, hsome⟩ := List.mem_filterMap.mp hu
      have hbid : u.id = b.id := processOne_fst_id defs now b u hsome
      have hba : b = a := by
        refine List.inj_on_of_nodup_map hnodup hb ha ?_
        rw [← hbid]
        exact hid
      rw [hba] at hsome
      rw [processOne_removes defs now a hap (hpos a ha) (hdef a ha) hle] at hsome
      exact Option.noConfusion hsome

/-- C1: evaluation of the pause/resume scenario on the 60-second
neutral-pull timer. The timer is started at wall-clock 0, individually
paused after tick k = 10, resumed after p = 5 paused ticks, and advanced
D − k = 50 further ticks. The completion alert fires at wall-clock tick
60, not at tick k + p + (D − k) = 65: `pauseTimer` only toggles the flag
and records `pausedTime`, it never shifts `startTime`, so the paused
interval still counts toward the wall-clock elapsed time. -/
theorem c1_paused_interval_not_excluded :
    (runTicks DEFAULT_TIMERS 50
      (pauseTimer "neutral-pull" 15000
        (runTicks DEFAULT_TIMERS 5
          (pauseTimer "neutral-pull" 10000
            (runTicks DEFAULT_TIMERS 10
              (startTimer DEFAULT_TIMERS "neutral-pull" 0 initTM) 0).1) 10).1) 15).2.filter
      (fun x => x.2.isCompletion) = [(60, Alert.completed "neutral-pull")] ∧
    10 + 5 + (60 - 10) = 65 := by decide

/-- C2: the recomputed remaining time of line 79 of `TimerManager.tsx`
differs from the formula `max(0, D − floor(e))` of the specification:
for the 60-second neutral-pull timer at 67 elapsed seconds (reachable
after a pause/resume straddling the deadline) the code computes
`max(0, 60) − 67 = −7`, a negative value, where the specification
formula yields 0. -/
theorem c2_recomputed_remaining_negative :
    recomputeRemaining DEFAULT_TIMERS "neutral-pull" 67000 = -7 ∧
    specRemaining 60 67000 = 0 := by decide

/-- C3: `sanitizeGameState(null)` and `sanitizeGameState({})` both yield
null, and `sanitizeGameState({map:{clock_time: 90}})` yields a non-null
GameState — but its `gameTime` is 0, not 90: the sanitizer always fills
`map.game_time` with the default 0, so the
`?? sanitized.map?.clock_time` fallback of `processGameState` never
fires. -/
theorem c3_gameTime_defaults_to_zero :
    processGameState Js.null = none ∧
    processGameState (Js.obj []) = none ∧
    processGameState (Js.obj [("map", Js.obj [("clock_time", Js.num 90)])]) =
      some { clock_time := 90, game_time := 0, paused := false
           , game_state := "DOTA_GAMERULES_STATE_INIT", winner := 0 } ∧
    (processGameState (Js.obj [("map", Js.obj [("clock_time", Js.num 90)])])).map
      GameState.game_time ≠ some 90 := by decide

/-- C4: evaluation of three consecutive failed polls after `connect()`.
Each failed poll increments the attempt counter and keeps the 2000 ms
cadence while below the maximum — but after the third failure the state
is still `connecting` with no error, and the polling interval is gone:
the catch block compares the pre-increment captured attempt count, and
the interval effect requires attempts < 3, so `error` is never
reached. -/
theorem c4_three_failures_stuck_connecting :
    (pollFail "m" (connectFeed
        { status := ConnStatus.disconnected, connectionAttempts := 0
        , errorMsg := none })).status = ConnStatus.connecting ∧
    (pollFail "m" (connectFeed
        { status := ConnStatus.disconnected, connectionAttempts := 0
        , errorMsg := none })).connectionAttempts = 1 ∧
    pollIntervalMs (pollFail "m" (connectFeed
        { status := ConnStatus.disconnected, connectionAttempts := 0
        , errorMsg := none })) = some 2000 ∧
    (pollFail "m" (pollFail "m" (connectFeed
        { status := ConnStatus.disconnected, connectionAttempts := 0
        , errorMsg := none }))).status = ConnStatus.connecting ∧
    pollIntervalMs (pollFail "m" (pollFail "m" (connectFeed
        { status := ConnStatus.disconnected, connectionAttempts := 0
        , errorMsg := none }))) = some 2000 ∧
    (pollFail "m" (pollFail "m" (pollFail "m" (connectFeed
        { status := ConnStatus.disconnected, connectionAttempts := 0
        , errorMsg := none })))).status = ConnStatus.connecting ∧
    (pollFail "m" (pollFail "m" (pollFail "m" (connectFeed
        { status := ConnStatus.disconnected, connectionAttempts := 0
        , errorMsg := none })))).connectionAttempts = 3 ∧
    (pollFail "m" (pollFail "m" (pollFail "m" (connectFeed
        { status := ConnStatus.disconnected, connectionAttempts := 0
        , errorMsg := none })))).errorMsg = none ∧
    pollIntervalMs (pollFail "m" (pollFail "m" (pollFail "m" (connectFeed
        { status := ConnStatus.disconnected, connectionAttempts := 0
        , errorMsg := none })))) = none := by decide

/-- C5: evaluation of the global-pause scenario on the 60-second
neutral-pull timer. While the global flag is set, three ticks change no
remaining time and emit nothing; but on the first tick after the flag is
cleared the remaining time jumps from 58 to 54 — the three globally
paused seconds (and the second in which the toggle happened) were
counted, because elapsed time is always `now − startTime`. -/
theorem c5_global_pause_interval_counted :
    ((runTicks DEFAULT_TIMERS 2
        (startTimer DEFAULT_TIMERS "neutral-pull" 0 initTM) 0).1.activeTimers.map
      ActiveTimer.timeRemaining = [58]) ∧
    ((runTicks DEFAULT_TIMERS 3 (pauseAllTimers
        (runTicks DEFAULT_TIMERS 2
          (startTimer DEFAULT_TIMERS "neutral-pull" 0 initTM) 0).1) 2).1.activeTimers.map
      ActiveTimer.timeRemaining = [58]) ∧
    ((runTicks DEFAULT_TIMERS 3 (pauseAllTimers
        (runTicks DEFAULT_TIMERS 2
          (startTimer DEFAULT_TIMERS "neutral-pull" 0 initTM) 0).1) 2).2 = []) ∧
    ((runTicks DEFAULT_TIMERS 1 (pauseAllTimers
        (runTicks DEFAULT_TIMERS 3 (pauseAllTimers
          (runTicks DEFAULT_TIMERS 2
            (startTimer DEFAULT_TIMERS "neutral-pull" 0 initTM) 0).1) 2).1) 5).1.activeTimers.map
      ActiveTimer.timeRemaining = [54]) := by decide

theorem getField_cons_ne (k k' : String) (v : Js) (fs : List (String × Js))
    (h : ¬(k' = k)) : getField ((k', v) :: fs) k = getField fs k := by
  rw [getField, List.find?_cons_of_neg _ (by simp [h]), getField]

theorem buildRaw_cons_irrelevant (k : String) (v : Js) (fs : List (String × Js))
    (h1 : ¬(k = "map")) (h2 : ¬(k = "clock_time")) (h3 : ¬(k = "game_time"))
    (h4 : ¬(k = "paused")) (h5 : ¬(k = "game_state")) (h6 : ¬(k = "winner")) :
    buildRaw ((k, v) :: fs) = buildRaw fs := by
  unfold buildRaw sanitizeMapField
  rw [getField_cons_ne _ _ _ _ h1, getField_cons_ne _ _ _ _ h2,
    getField_cons_ne _ _ _ _ h3, getField_cons_ne _ _ _ _ h4,
    getField_cons_ne _ _ _ _ h5, getField_cons_ne _ _ _ _ h6]

/-- C8: the sanitizer is insensitive to `__proto__` and `constructor`
keys — prepending either to any payload object leaves the result
unchanged, so these keys are ignored and never merged into the output —
and any array input is rejected outright. The embedding itself is a
total pure function over every JS value shape, which is the form
"side-effect-free and never throws" takes here. -/
theorem c8_dangerous_keys_ignored (v : Js) (fs : List (String × Js)) (xs : List Js) :
    validateAndSanitizeGSIData (Js.obj (("__proto__", v) :: fs)) =
      validateAndSanitizeGSIData (Js.obj fs) ∧
    validateAndSanitizeGSIData (Js.obj (("constructor", v) :: fs)) =
      validateAndSanitizeGSIData (Js.obj fs) ∧
    validateAndSanitizeGSIData (Js.arr xs) = none := by
  refine ⟨?_, ?_, rfl⟩
  · simp only [validateAndSanitizeGSIData]
    rw [buildRaw_cons_irrelevant _ _ _ (by decide) (by decide) (by decide) (by decide)
      (by decide) (by decide)]
  · simp only [validateAndSanitizeGSIData]
    rw [buildRaw_cons_irrelevant _ _ _ (by decide) (by decide) (by decide) (by decide)
      (by decide) (by decide)]

theorem jsMin_eq_right (a b : Rat) (h : b ≤ a) : jsMin a b = b := by
  unfold jsMin
  split
  · rename_i h2
    exact le_antisymm h2 h
  · rfl

theorem jsMax_eq_right (a b : Rat) (h : a ≤ b) : jsMax a b = b := by
  unfold jsMax
  rw [if_pos h]

theorem sanitizeNumber_bounds (v : Option Js) (lo hi d : Rat)
    (h1 : lo ≤ hi) (h2 : lo ≤ d) (h3 : d ≤ hi) :
    lo ≤ sanitizeNumber v lo hi d ∧ sanitizeNumber v lo hi d ≤ hi := by
  unfold sanitizeNumber
  split
  · unfold jsMax jsMin
    split_ifs <;> constructor <;> linarith
  · exact ⟨h2, h3⟩

theorem sanitizeNumber_fix (q lo hi d : Rat) (hlo : lo ≤ q) (hhi : q ≤ hi) :
    sanitizeNumber (some (Js.num q)) lo hi d = q := by
  show jsMax lo (jsMin hi q) = q
  rw [jsMin_eq_right _ _ hhi, jsMax_eq_right _ _ hlo]

theorem sanitizeNumber_idem (v : Option Js) (lo hi d : Rat)
    (h1 : lo ≤ hi) (h2 : lo ≤ d) (h3 : d ≤ hi) :
    sanitizeNumber (some (Js.num (sanitizeNumber v lo hi d))) lo hi d =
      sanitizeNumber v lo hi d := by
  obtain ⟨hl, hh⟩ := sanitizeNumber_bounds v lo hi d h1 h2 h3
  exact sanitizeNumber_fix _ lo hi d hl hh

theorem sanitizeGameState_mem (v : Option Js) :
    VALID_GAME_STATES.contains (sanitizeGameState v) = true := by
  unfold sanitizeGameState
  split
  · split
    · assumption
    · decide
  · decide

theorem sanitizeGameState_idem (v : Option Js) :
    sanitizeGameState (some (Js.str (sanitizeGameState v))) = sanitizeGameState v := by
  have h := sanitizeGameState_mem v
  generalize hX : sanitizeGameState v = X at h ⊢
  simp [sanitizeGameState, h]
  intro hmem
  exact absurd (by simpa using h) hmem

theorem getField_append (xs ys : List (String × Js)) (k : String) :
    getField (xs ++ ys) k = (getField xs k).or (getField ys k) := by
  simp only [getField]
  rw [List.find?_append]
  cases List.find? (fun kv => kv.1 == k) xs <;> rfl

theorem getField_optField_self (k : String) (v : Option Js) :
    getField (optField k v) k = v := by
  cases v with
  | none => rfl
  | some j =>
    show getField [(k, j)] k = some j
    rw [getField, List.find?_cons_of_pos _ (by simp)]
    rfl

theorem getField_optField_ne (k k' : String) (v : Option Js) (h : ¬(k = k')) :
    getField (optField k v) k' = none := by
  cases v with
  | none => rfl
  | some j =>
    show getField [(k, j)] k' = none
    rw [getField, List.find?_cons_of_neg _ (by simp [h]), List.find?_nil]
    rfl

theorem getField_optField_append_self (k : String) (v : Option Js)
    (rest : List (String × Js)) :
    getField (optField k v ++ rest) k = v.or (getField rest k) := by
  rw [getField_append, getField_optField_self]

theorem getField_optField_append_ne (k k' : String) (v : Option Js)
    (rest : List (String × Js)) (h : ¬(k = k')) :
    getField (optField k v ++ rest) k' = getField rest k' := by
  rw [getField_append, getField_optField_ne _ _ _ h]
  rfl

theorem getField_encodeRaw_map (r : RawGSIData) :
    getField (encodeRaw r) "map" = r.map.map (fun m => Js.obj (encodeMap m)) := by
  rw [encodeRaw, getField_optField_append_self,
    getField_optField_append_ne _ _ _ _ (by decide),
    getField_optField_append_ne _ _ _ _ (by decide),
    getField_optField_append_ne _ _ _ _ (by decide),
    getField_optField_append_ne _ _ _ _ (by decide),
    getField_optField_ne _ _ _ (by decide)]
  cases r.map <;> rfl

theorem getField_encodeRaw_clock (r : RawGSIData) :
    getField (encodeRaw r) "clock_time" = r.clock_time.map Js.num := by
  rw [encodeRaw, getField_optField_append_ne _ _ _ _ (by decide),
    getField_optField_append_self,
    getField_optField_append_ne _ _ _ _ (by decide),
    getField_optField_append_ne _ _ _ _ (by decide),
    getField_optField_append_ne _ _ _ _ (by decide),
    getField_optField_ne _ _ _ (by decide)]
  cases r.clock_time <;> rfl

theorem getField_encodeRaw_game_time (r : RawGSIData) :
    getField (encodeRaw r) "game_time" = r.game_time.map Js.num := by
  rw [encodeRaw, getField_optField_append_ne _ _ _ _ (by decide),
    getField_optField_append_ne _ _ _ _ (by decide),
    getField_optField_append_self,
    getField_optField_append_ne _ _ _ _ (by decide),
    getField_optField_append_ne _ _ _ _ (by decide),
    getField_optField_ne _ _ _ (by decide)]
  cases r.game_time <;> rfl

theorem getField_encodeRaw_paused (r : RawGSIData) :
    getField (encodeRaw r) "paused" = r.paused.map Js.bool := by
  rw [encodeRaw, getField_optField_append_ne _ _ _ _ (by decide),
    getField_optField_append_ne _ _ _ _ (by decide),
    getField_optField_append_ne _ _ _ _ (by decide),
    getField_optField_append_self,
    getField_optField_append_ne _ _ _ _ (by decide),
    getField_optField_ne _ _ _ (by decide)]
  cases r.paused <;> rfl

theorem getField_encodeRaw_game_state (r : RawGSIData) :
    getField (encodeRaw r) "game_state" = r.game_state.map Js.str := by
  rw [encodeRaw, getField_optField_append_ne _ _ _ _ (by decide),
    getField_optField_append_ne _ _ _ _ (by decide),
    getField_optField_append_ne _ _ _ _ (by decide),
    getField_optField_append_ne _ _ _ _ (by decide),
    getField_optField_append_self,
    getField_optField_ne _ _ _ (by decide)]
  cases r.game_state <;> rfl

theorem getField_encodeRaw_winner (r : RawGSIData) :
    getField (encodeRaw r) "winner" = r.winner.map Js.num := by
  rw [encodeRaw, getField_optField_append_ne _ _ _ _ (by decide),
    getField_optField_append_ne _ _ _ _ (by decide),
    getField_optField_append_ne _ _ _ _ (by decide),
    getField_optField_append_ne _ _ _ _ (by decide),
    getField_optField_append_ne _ _ _ _ (by decide),
    getField_optField_self]

theorem sanitizeMapObj_idem (ms : List (String × Js)) :
    sanitizeMapObj (encodeMap (sanitizeMapObj ms)) = sanitizeMapObj ms := by
  have hb1 : MIN_GAME_TIME ≤ MAX_GAME_TIME := by norm_num [MIN_GAME_TIME, MAX_GAME_TIME]
  have hb2 : MIN_GAME_TIME ≤ 0 := by norm_num [MIN_GAME_TIME]
  have hb3 : (0 : Rat) ≤ MAX_GAME_TIME := by norm_num [MAX_GAME_TIME]
  show ({ clock_time := sanitizeNumber (some (Js.num
            (sanitizeNumber (getField ms "clock_time") MIN_GAME_TIME MAX_GAME_TIME 0)))
            MIN_GAME_TIME MAX_GAME_TIME 0
        , game_time := sanitizeNumber (some (Js.num
            (sanitizeNumber (getField ms "game_time") MIN_GAME_TIME MAX_GAME_TIME 0)))
            MIN_GAME_TIME MAX_GAME_TIME 0
        , paused := sanitizeBool (some (Js.bool (sanitizeBool (getField ms "paused"))))
        , game_state := sanitizeGameState (some (Js.str
            (sanitizeGameState (getField ms "game_state"))))
        , winner := sanitizeNumber (some (Js.num
            (sanitizeNumber (getField ms "winner") 0 3 0))) 0 3 0 } : MapData) =
      sanitizeMapObj ms
  rw [sanitizeNumber_idem _ _ _ _ hb1 hb2 hb3, sanitizeNumber_idem _ _ _ _ hb1 hb2 hb3,
    sanitizeNumber_idem _ _ _ _ (by norm_num) (le_refl 0) (by norm_num),
    sanitizeGameState_idem]
  rfl

theorem rawGSIData_ext (x y : RawGSIData) (h1 : x.map = y.map)
    (h2 : x.clock_time = y.clock_time) (h3 : x.game_time = y.game_time)
    (h4 : x.paused = y.paused) (h5 : x.game_state = y.game_state)
    (h6 : x.winner = y.winner) : x = y := by
  cases x
  cases y
  simp_all

theorem buildRaw_encode (fs : List (String × Js)) :
    buildRaw (encodeRaw (buildRaw fs)) = buildRaw fs := by
  have hb1 : MIN_GAME_TIME ≤ MAX_GAME_TIME := by norm_num [MIN_GAME_TIME, MAX_GAME_TIME]
  have hb2 : MIN_GAME_TIME ≤ 0 := by norm_num [MIN_GAME_TIME]
  have hb3 : (0 : Rat) ≤ MAX_GAME_TIME := by norm_num [MAX_GAME_TIME]
  apply rawGSIData_ext
  · show sanitizeMapField (encodeRaw (buildRaw fs)) = (buildRaw fs).map
    cases hmm : (buildRaw fs).map with
    | none =>
      unfold sanitizeMapField
      rw [getField_encodeRaw_map, hmm]
      rfl
    | some m =>
      have hmm2 : sanitizeMapField fs = some m := hmm
      obtain ⟨ms, hms, hmEq⟩ : ∃ ms, getField fs "map" = some (Js.obj ms) ∧
          m = sanitizeMapObj ms := by
        unfold sanitizeMapField at hmm2
        split at hmm2
        · rename_i ms hfs
          exact ⟨ms, hfs, (Option.some.inj hmm2).symm⟩
        · exact absurd hmm2 (by simp)
      subst hmEq
      unfold sanitizeMapField
      rw [getField_encodeRaw_map, hmm, Option.map_some']
      show some (sanitizeMapObj (encodeMap (sanitizeMapObj ms))) = some (sanitizeMapObj ms)
      rw [sanitizeMapObj_idem]
  · show (getField (encodeRaw (buildRaw fs)) "clock_time").map
        (fun v => sanitizeNumber (some v) MIN_GAME_TIME MAX_GAME_TIME 0) =
      (buildRaw fs).clock_time
    rw [getField_encodeRaw_clock]
    cases hc : (buildRaw fs).clock_time with
    | none => rfl
    | some q =>
      obtain ⟨v, hv, hq⟩ := Option.map_eq_some'.mp
        (hc : (getField fs "clock_time").map
          (fun v => sanitizeNumber (some v) MIN_GAME_TIME MAX_GAME_TIME 0) = some q)
      rw [Option.map_some', Option.map_some', ← hq,
        sanitizeNumber_idem _ _ _ _ hb1 hb2 hb3]
  · show (getField (encodeRaw (buildRaw fs)) "game_time").map
        (fun v => sanitizeNumber (some v) MIN_GAME_TIME MAX_GAME_TIME 0) =
      (buildRaw fs).game_time
    rw [getField_encodeRaw_game_time]
    cases hc : (buildRaw fs).game_time with
    | none => rfl
    | some q =>
      obtain ⟨v, hv, hq⟩ := Option.map_eq_some'.mp
        (hc : (getField fs "game_time").map
          (fun v => sanitizeNumber (some v) MIN_GAME_TIME MAX_GAME_TIME 0) = some q)
      rw [Option.map_some', Option.map_some', ← hq,
        sanitizeNumber_idem _ _ _ _ hb1 hb2 hb3]
  · show (getField (encodeRaw (buildRaw fs)) "paused").map
        (fun v => sanitizeBool (some v)) = (buildRaw fs).paused
    rw [getField_encodeRaw_paused]
    cases hc : (buildRaw fs).paused with
    | none => rfl
    | some b => rfl
  · show (getField (encodeRaw (buildRaw fs)) "game_state").map
        (fun v => sanitizeGameState (some v)) = (buildRaw fs).game_state
    rw [getField_encodeRaw_game_state]
    cases hc : (buildRaw fs).game_state with
    | none => rfl
    | some g =>
      obtain ⟨v, hv, hq⟩ := Option.map_eq_some'.mp
        (hc : (getField fs "game_state").map
          (fun v => sanitizeGameState (some v)) = some g)
      rw [Option.map_some', Option.map_some', ← hq, sanitizeGameState_idem]
  · show (getField (encodeRaw (buildRaw fs)) "winner").map
        (fun v => sanitizeNumber (some v) 0 3 0) = (buildRaw fs).winner
    rw [getField_encodeRaw_winner]
    cases hc : (buildRaw fs).winner with
    | none => rfl
    | some q =>
      obtain ⟨v, hv, hq⟩ := Option.map_eq_some'.mp
        (hc : (getField fs "winner").map
          (fun v => sanitizeNumber (some v) 0 3 0) = some q)
      rw [Option.map_some', Option.map_some', ← hq,
        sanitizeNumber_idem _ _ _ _ (by norm_num) (le_refl 0) (by norm_num)]

/-- C9: the sanitizer is idempotent — re-validating the JS value denoted
by a sanitizer result reproduces that result exactly, for every input
value; a rejected input stays rejected. -/
theorem c9_sanitize_idempotent (x : Js) :
    validateAndSanitizeGSIData (encodeResult (validateAndSanitizeGSIData x)) =
      validateAndSanitizeGSIData x := by
  cases hx : validateAndSanitizeGSIData x with
  | none => rfl
  | some r =>
    cases x with
    | obj fs =>
      simp only [validateAndSanitizeGSIData] at hx
      split at hx
      · exact absurd hx (by simp)
      · rename_i hempty
        have hr : r = buildRaw fs := (Option.some.inj hx).symm
        subst hr
        show validateAndSanitizeGSIData (Js.obj (encodeRaw (buildRaw fs))) =
          some (buildRaw fs)
        simp only [validateAndSanitizeGSIData]
        rw [buildRaw_encode]
        rw [if_neg hempty]
    | null => exact absurd hx (by simp [validateAndSanitizeGSIData])
    | bool b => exact absurd hx (by simp [validateAndSanitizeGSIData])
    | num q => exact absurd hx (by simp [validateAndSanitizeGSIData])
    | nan => exact absurd hx (by simp [validateAndSanitizeGSIData])
    | inf b => exact absurd hx (by simp [validateAndSanitizeGSIData])
    | str s => exact absurd hx (by simp [validateAndSanitizeGSIData])
    | arr xs => exact absurd hx (by simp [validateAndSanitizeGSIData])


/-- Witness instantiating `c7_completion_on_Dth_tick` at the concrete
60-second neutral-pull definition. -/
theorem c7_completion_on_Dth_tick_witness :
    neutralPullTimer.duration = ((60 : Nat) : Int) ∧ 0 < 60 ∧
    (((runTicks [neutralPullTimer] 60
        (startTimer [neutralPullTimer] neutralPullTimer.id 0 initTM) 0).2.filter
        (fun x => x.2.isCompletion)) =
      [(60, Alert.completed neutralPullTimer.id)] ∧
      (runTicks [neutralPullTimer] 60
        (startTimer [neutralPullTimer] neutralPullTimer.id 0 initTM) 0).1.activeTimers =
        []) :=
  ⟨by decide, by decide, c7_completion_on_Dth_tick neutralPullTimer 60 (by decide) (by decide)⟩

/-- Witness instantiating `c6_window_then_completion` at the concrete
roshan window definition (min 480, duration 660). -/
theorem c6_window_then_completion_witness :
    roshanTimer.duration = ((660 : Nat) : Int) ∧
    roshanTimer.type = "roshan" ∧
    roshanTimer.minDuration = some ((480 : Nat) : Int) ∧
    0 < 480 ∧ 480 < 660 ∧
    ((runTicks [roshanTimer] 480
        (startTimer [roshanTimer] roshanTimer.id 0 initTM) 0).1.activeTimers ≠ [] ∧
      (runTicks [roshanTimer] 480
        (startTimer [roshanTimer] roshanTimer.id 0 initTM) 0).2 =
        [(480, Alert.windowOpen roshanTimer.id)] ∧
      (runTicks [roshanTimer] 660
        (startTimer [roshanTimer] roshanTimer.id 0 initTM) 0).2 =
        [(480, Alert.windowOpen roshanTimer.id), (660, Alert.completed roshanTimer.id)] ∧
      (runTicks [roshanTimer] 660
        (startTimer [roshanTimer] roshanTimer.id 0 initTM) 0).1.activeTimers = []) :=
  ⟨by decide, by decide, by decide, by decide, by decide,
    c6_window_then_completion roshanTimer 660 480 (by decide) (by decide) (by decide)
      (by decide) (by decide)⟩

/-- Witness instantiating `c10_no_negative_survivor` at a concrete
well-formed one-timer state five seconds into its run. -/
theorem c10_no_negative_survivor_witness :
    (∀ a ∈ witnessState.activeTimers, 0 < a.timeRemaining) ∧
    (∀ a ∈ witnessState.activeTimers, ∃ d ∈ DEFAULT_TIMERS, d.id = a.id) ∧
    (witnessState.activeTimers.map ActiveTimer.id).Nodup ∧
    ((∀ u ∈ (tick DEFAULT_TIMERS 5000 witnessState).1.activeTimers,
        0 ≤ u.timeRemaining) ∧
      (witnessState.isPaused = false → ∀ a ∈ witnessState.activeTimers,
        a.isPaused = false →
        recomputeRemaining DEFAULT_TIMERS a.id (5000 - a.startTime) ≤ 0 →
        ∀ u ∈ (tick DEFAULT_TIMERS 5000 witnessState).1.activeTimers,
          u.id ≠ a.id)) :=
  ⟨by decide, by decide, by decide,
    c10_no_negative_survivor DEFAULT_TIMERS 5000 witnessState (by decide) (by decide)
      (by decide)⟩
